import Mathlib

/-!
# Verification of the tomatillo countdown core

Shallow embedding of `crates/lib/src/countdown/{timer,channel,watcher}.rs`.
Durations are carried as natural numbers of milliseconds, exactly as the Rust
code carries `u64` millisecond counts (all values here are far below `2^64`,
so `Nat` subtraction is the only place where `u64` semantics matter, and it is
modelled explicitly).  `tokio::time::Duration` values are compared by their
millisecond count, which matches `Duration`'s total order on the values the
code constructs (`Duration::from_millis`).
-/

namespace Tomatillo

/-! ## Error types (`timer.rs`, `channel.rs`, `mod.rs`) -/

/-- `InvalidCountdown` from `timer.rs`: period validation failures.
The payload is the offending period in milliseconds. -/
inductive InvalidCountdown where
  | ZeroInterval : InvalidCountdown
  | IntervalGreaterThanOneHour (period_ms : Nat) : InvalidCountdown
deriving DecidableEq, Repr

/-- `InvalidDuration` from `timer.rs`: duration validation failures.
Payloads are millisecond counts. -/
inductive InvalidDuration where
  | ZeroDuration : InvalidDuration
  | DurationGreaterThanOneDay (duration_ms : Nat) : InvalidDuration
  | DurationSmallerThanPeriod (duration_ms period_ms : Nat) : InvalidDuration
deriving DecidableEq, Repr

/-- `TimerError` from `timer.rs`. -/
inductive TimerError where
  | InvalidCountdown (e : InvalidCountdown) : TimerError
  | InvalidDuration (e : InvalidDuration) : TimerError
deriving DecidableEq, Repr

/-- `ChannelError` from `channel.rs`; the payload is the timeout in ms. -/
inductive ChannelError where
  | Timeout (timeout_ms : Nat) : ChannelError
deriving DecidableEq, Repr

/-- `CountdownError` from `countdown/mod.rs`. -/
inductive CountdownError where
  | TimerError (e : TimerError) : CountdownError
  | ChannelError (e : ChannelError) : CountdownError
deriving DecidableEq, Repr

/-- `Response<T>` from `countdown/mod.rs`. -/
inductive Response (T : Type) where
  | Value (v : T) : Response T
  | Closed : Response T
deriving DecidableEq, Repr

deriving instance DecidableEq for Except

/-! ## Duration validators (`timer.rs`) -/

/-- `validate_period` from `timer.rs`:
```
if period == 0u64 { return Err(ZeroInterval) }
if period > 3600 * 1000 { return Err(IntervalGreaterThanOneHour(period)) }
Ok(())
``` -/
def validate_period (period : Nat) : Except TimerError Unit :=
  if period = 0 then
    .error (.InvalidCountdown .ZeroInterval)
  else if period > 3600 * 1000 then
    .error (.InvalidCountdown (.IntervalGreaterThanOneHour period))
  else
    .ok ()

/-- `AsyncCountdown::validate_duration` from `timer.rs`.  `period` is the
millisecond count of `self.interval.period()`, i.e. the validated period the
countdown was constructed with.  Note the literal in the source is `86_400`
(`if duration > 86_400`), even though `duration` is a millisecond count:
```
if duration == 0 { return Err(ZeroDuration) }
if duration > 86_400 { return Err(DurationGreaterThanOneDay(duration)) }
if period > Duration::from_millis(duration) { return Err(DurationSmallerThanPeriod{duration, period}) }
Ok(())
``` -/
def validate_duration (period duration : Nat) : Except TimerError Unit :=
  if duration = 0 then
    .error (.InvalidDuration .ZeroDuration)
  else if duration > 86400 then
    .error (.InvalidDuration (.DurationGreaterThanOneDay duration))
  else if period > duration then
    .error (.InvalidDuration (.DurationSmallerThanPeriod duration period))
  else
    .ok ()

/-! ## IEEE binary64 model

`calc_intervals` in `timer.rs` works through `f64`:
`(duration.as_secs_f64() / period.as_secs_f64()).ceil() as u32`.
We model an `f64` by its exact rational value.  Every `f64` arising from the
code's inputs is either `0` or lies well inside the normal range of binary64
(magnitudes between `2^-20` and `2^30`), so neither subnormals nor overflow
need to be modelled: a positive normal binary64 is `m * 2^(e-52)` with
`2^52 ≤ m < 2^53`, and every arithmetic operation rounds its exact result to
the nearest such value, ties to even mantissa. -/

/-- A nonnegative rational, as an unnormalised numerator/denominator pair
(`F64.num / F64.den`; the denominator is always positive by construction).
Used both for exact intermediate values and for the exact value of an `f64`:
every `f64` appearing in the code's computation is nonnegative, so a sign is
not modelled. -/
structure F64 where
  num : Nat
  den : Nat
deriving DecidableEq, Repr

/-- Round-half-to-even of `a / b` (with `b > 0`) to a natural number. -/
def roundHalfEven (a b : Nat) : Nat :=
  let n := a / b
  let r := a % b
  if 2 * r < b then n
  else if b < 2 * r then n + 1
  else if n % 2 = 0 then n else n + 1

/-- `natLog2 fuel n` is `⌊log2 n⌋` for `1 ≤ n ≤ 2^fuel` (structural recursion
on `fuel` so the kernel can evaluate it). -/
def natLog2 : Nat → Nat → Nat
  | 0, _ => 0
  | fuel + 1, n => if 2 ≤ n then natLog2 fuel (n / 2) + 1 else 0

/-- Round the positive rational `a / b` to the nearest binary64 value (ties to
even): scale by the power of two that puts it in `[2^52, 2^53)`, round the
mantissa half-to-even, and scale back.  The binade exponent `e`
(`2^e ≤ a/b < 2^(e+1)`) is `⌊log2 (a/b)⌋`; for `a/b ≥ 1` this is
`⌊log2 ⌊a/b⌋⌋`, and for `a/b < 1` it is `-k` when `b = a * 2^k` and `-(k+1)`
otherwise, where `k = ⌊log2 ⌊b/a⌋⌋`. -/
def roundRatPos (a b : Nat) : F64 :=
  if b ≤ a then
    let e := natLog2 a (a / b)
    if e ≤ 52 then
      let s := 2 ^ (52 - e)
      ⟨roundHalfEven (a * s) b, s⟩
    else
      let s := 2 ^ (e - 52)
      ⟨roundHalfEven a (b * s) * s, 1⟩
  else
    let k := natLog2 b (b / a)
    let e := if b = a * 2 ^ k then k else k + 1
    let s := 2 ^ (52 + e)
    ⟨roundHalfEven (a * s) b, s⟩

/-- Round the nonnegative rational `a / b` to the nearest binary64 value. -/
def roundRat (a b : Nat) : F64 :=
  if a = 0 then ⟨0, 1⟩ else roundRatPos a b

/-- `f64` division: round the exact quotient. -/
def fdiv (x y : F64) : F64 := roundRat (x.num * y.den) (x.den * y.num)

/-- `f64` addition: round the exact sum. -/
def fadd (x y : F64) : F64 := roundRat (x.num * y.den + y.num * x.den) (x.den * y.den)

/-- `Duration::as_secs_f64` for a duration built by `Duration::from_millis ms`,
which stores `secs = ms / 1000` and `nanos = (ms % 1000) * 1_000_000`:
`(secs as f64) + (subsec_nanos as f64) / (1e9 as f64)`.  The integer-to-`f64`
casts are exact here (all operands are below `2^53`), but are still routed
through `roundRat` to mirror the casts in the source. -/
def as_secs_f64 (ms : Nat) : F64 :=
  fadd (roundRat (ms / 1000) 1)
    (fdiv (roundRat ((ms % 1000) * 1000000) 1) (roundRat 1000000000 1))

/-- `f64::ceil` on a nonnegative value: exact, and the result (an integer
below `2^53` on every value arising here) is exactly representable. -/
def fceil (x : F64) : F64 := roundRat ((x.num + x.den - 1) / x.den) 1

/-- Rust `as u32` cast from a nonnegative finite `f64`: truncate toward zero,
saturating at `u32::MAX`. -/
def f64_as_u32 (x : F64) : Nat :=
  min (x.num / x.den) (2 ^ 32 - 1)

/-- `calc_intervals` from `timer.rs`:
`(duration.as_secs_f64() / period.as_secs_f64()).ceil() as u32`. -/
def calc_intervals (duration period : Nat) : Nat :=
  f64_as_u32 (fceil (fdiv (as_secs_f64 duration) (as_secs_f64 period)))

/-! ## Countdown scheduler (`timer.rs`) -/

/-- `AsyncCountdown::start`: validates the duration, then (only on success)
spawns the background `countdown` task and returns the receiver.  Modelled as
the validation result paired with whether `tokio::spawn` was reached. -/
def start (period duration : Nat) : Except TimerError Unit × Bool :=
  match validate_duration period duration with
  | .error e => (.error e, false)
  | .ok _ => (.ok (), true)

/-- The `for i in 0..=intervals` loop body of `countdown` in `timer.rs`,
which executes `tx.send(duration - (period_ms * i as u64))` each iteration.
The subtraction is on `u64`: when `period_ms * i > duration` it overflows,
which is a panic in a debug build (and wraps around `2^64` in release),
modelled as `none`.  `count` is the number of iterations left. -/
def sendLoop (duration period : Nat) : Nat → Nat → Option (List Nat)
  | _, 0 => some []
  | i, count + 1 =>
    if period * i ≤ duration then
      (sendLoop duration period (i + 1) count).map
        (fun rest => (duration - period * i) :: rest)
    else
      none

/-- The sequence of values the background task `countdown` in `timer.rs`
sends over the channel: `for i in 0..=calc_intervals(duration, period)`, send
`duration - period * i`; `none` if some iteration's `u64` subtraction
overflows.  Tick waiting and the final `close()` are modelled separately in
the channel section. -/
def countdown (duration period : Nat) : Option (List Nat) :=
  sendLoop duration period 0 (calc_intervals duration period + 1)

/-! ## Handshake channel (`channel.rs`)

The channel's shared state: a `tokio::watch` channel for values (latest value
plus the receiver-side "changed" flag), a `tokio::watch` channel of `bool`
used for acknowledgments (current bool plus its receiver-side "changed"
flag), a `closed` flag behind an `RwLock`, and the configured timeout.  Both
handles (`ChannelSender`, `ChannelReceiver`) share one `Arc<Channel>`, so a
sequential trace of operations is a fold over one state.

Every wait (`await_with_timeout`) polls the corresponding "changed" flag
under the receiver lock: `borrow_and_update` marks the current value seen
(clears the flag) and reports whether it had been unseen.  In a sequential
trace no concurrent task can raise the flag while the wait is in progress, so
a wait finding the flag raised succeeds immediately (clearing it), and a wait
finding it lowered sleeps until `time::timeout` fires: it returns
`ChannelError::Timeout(timeout)` with the state unchanged. -/

/-- The state of `Channel<T>` in `channel.rs`.  `retry_period_ms` and
`ack_poll_ms` only control poll pacing inside a wait and have no further
effect; they are carried for completeness. -/
structure Channel (T : Type) where
  value : T
  valueChanged : Bool
  ackVal : Bool
  ackChanged : Bool
  closed : Bool
  timeout_ms : Nat
  retry_period_ms : Nat
  ack_poll_ms : Nat
deriving DecidableEq, Repr

namespace Channel

/-- `Channel::new(init)`: `watch::channel(init)` followed by
`rx.mark_changed()`, the ack channel at `false` (unseen), not closed, and the
default configuration `timeout_ms = 1000`, `retry_period_ms = 100`,
`ack_poll_ms = 10`. -/
def new {T : Type} (init : T) : Channel T :=
  { value := init, valueChanged := true, ackVal := false, ackChanged := false,
    closed := false, timeout_ms := 1000, retry_period_ms := 100, ack_poll_ms := 10 }

/-- `Channel::read`: if `closed`, return `Closed` at once; otherwise await the
value watch with timeout — the changed flag raised means success returning the
current value (now marked seen), lowered means `Timeout`. -/
def read {T : Type} (c : Channel T) : Except ChannelError (Response T) × Channel T :=
  if c.closed then (.ok .Closed, c)
  else if c.valueChanged then (.ok (.Value c.value), { c with valueChanged := false })
  else (.error (.Timeout c.timeout_ms), c)

/-- `Channel::ack`: `ack_tx.send_replace(true)` — sets the ack bool and raises
the ack channel's changed flag. -/
def ack {T : Type} (c : Channel T) : Channel T :=
  { c with ackVal := true, ackChanged := true }

/-- `Channel::write`: `tx.send_modify(|v| *v = value)` — replaces the value
and raises the value channel's changed flag.  Never waits. -/
def write {T : Type} (c : Channel T) (v : T) : Channel T :=
  { c with value := v, valueChanged := true }

/-- `Channel::wait_ack`: await the ack watch with timeout, then
`ack_tx.send_replace(false)`.  On success the poll's `borrow_and_update`
clears the ack changed flag, after which `send_replace(false)` lowers the ack
bool and raises the flag again; on timeout the state is untouched and the
error carries the configured timeout. -/
def wait_ack {T : Type} (c : Channel T) : Except ChannelError Unit × Channel T :=
  if c.ackChanged then (.ok (), { c with ackVal := false, ackChanged := true })
  else (.error (.Timeout c.timeout_ms), c)

end Channel

/-- `Receiver::recv` for `ChannelReceiver` in `channel.rs`: `read`, then on
success `ack`, returning the read response. -/
def ChannelReceiver.recv {T : Type} (c : Channel T) :
    Except CountdownError (Response T) × Channel T :=
  match c.read with
  | (.error e, c') => (.error (.ChannelError e), c')
  | (.ok r, c') => (.ok r, c'.ack)

/-- `Sender::send` for `ChannelSender` in `channel.rs`: `write`, which always
succeeds and never waits. -/
def ChannelSender.send {T : Type} (c : Channel T) (v : T) :
    Except CountdownError Unit × Channel T :=
  (.ok (), c.write v)

/-- `Sender::close` for `ChannelSender` in `channel.rs`: `wait_ack` (with `?`
propagating its `Timeout` before anything else happens), then set
`closed = true`. -/
def ChannelSender.close {T : Type} (c : Channel T) :
    Except CountdownError Unit × Channel T :=
  match c.wait_ack with
  | (.error e, c') => (.error (.ChannelError e), c')
  | (.ok _, c') => (.ok (), { c' with closed := true })

/-- One channel operation of a sequential trace: the public operations of the
two handles plus the internal helpers of `Channel`. -/
inductive Op (T : Type) where
  | send (v : T) : Op T
  | recv : Op T
  | close : Op T
  | read : Op T
  | ack : Op T
  | write (v : T) : Op T
  | wait_ack : Op T
deriving DecidableEq, Repr

/-- The state after one operation (results discarded). -/
def applyOp {T : Type} (c : Channel T) : Op T → Channel T
  | .send v => (ChannelSender.send c v).2
  | .recv => (ChannelReceiver.recv c).2
  | .close => (ChannelSender.close c).2
  | .read => c.read.2
  | .ack => c.ack
  | .write v => c.write v
  | .wait_ack => c.wait_ack.2

/-- The state after a sequential trace of operations. -/
def runOps {T : Type} (c : Channel T) : List (Op T) → Channel T
  | [] => c
  | op :: ops => runOps (applyOp c op) ops

/-! ## Watcher (`watcher.rs`)

`ChannelWatcher<T>` wraps a raw `tokio::sync::watch::Receiver<T>` (not the
handshake channel above): its state is the watch channel's current value, the
receiver-side "changed" flag, and the configured timeout.  `next` awaits
`rx.changed()` under `time::timeout` — sequentially: succeed and clear the
flag when it is raised, otherwise time out.  (`changed()`'s result is
`unwrap()`ed, so a dropped sender is a panic; no closed signal reaches the
caller as a return value.)  On success it reads the current value: if
`is_zero()` it returns `Ok(None)`, otherwise `Ok(Some(value))`. -/

/-- `WatcherError` from `watcher.rs`. -/
inductive WatcherError where
  | EOF : WatcherError
  | Timeout (timeout_ms : Nat) : WatcherError
deriving DecidableEq, Repr

/-- State of `ChannelWatcher<T>` over `watch::Receiver<T>`. -/
structure ChannelWatcher (T : Type) where
  value : T
  changed : Bool
  timeout_ms : Nat
deriving DecidableEq, Repr

/-- `Zeroable::is_zero` for the unsigned integer impls: `*self == 0`. -/
def is_zero (v : Nat) : Bool := v = 0

/-- `Watcher::next` for `ChannelWatcher` in `watcher.rs` (at `u64`, i.e.
`Nat`): await `changed()` under the timeout; then read the current value and
return `None` if it is zero, `Some(value)` otherwise. -/
def ChannelWatcher.next (w : ChannelWatcher Nat) :
    Except WatcherError (Option Nat) × ChannelWatcher Nat :=
  if w.changed then
    let w' : ChannelWatcher Nat := { w with changed := false }
    if is_zero w'.value then (.ok none, w') else (.ok (some w'.value), w')
  else (.error (.Timeout w.timeout_ms), w)

/-! ## Model sanity anchors

Concrete evaluations of the binary64 model, matching IEEE-754 binary64
evaluation of the source expressions. -/

/-- `0.035 / 0.005` in binary64 is strictly above 7 (it is
`7.000000000000001`), so `ceil` lands on 8. -/
theorem f64_quotient_35ms_5ms_above_seven :
    7 * (fdiv (as_secs_f64 35) (as_secs_f64 5)).den <
      (fdiv (as_secs_f64 35) (as_secs_f64 5)).num ∧
    (fdiv (as_secs_f64 35) (as_secs_f64 5)).num <
      8 * (fdiv (as_secs_f64 35) (as_secs_f64 5)).den := by decide

/-- `1.0 / 0.1` in binary64 is exactly 10, and `86400 = ceil(86.4 / 0.001)`:
the model reproduces the well-known representative points. -/
theorem calc_intervals_sanity :
    calc_intervals 1000 100 = 10 ∧ calc_intervals 86400 1 = 86400 ∧
    calc_intervals 1000 1000 = 1 := by decide

/-! ## Claim theorems -/

/-- **C4** (code_bug evidence).  The claim says the duration-too-large variant
fires iff the duration exceeds one day, 86,400,000 ms.  `validate_duration`
compares the millisecond count against `86_400` — one day in *seconds* — so a
duration of 86,401 ms (86.4 s) is rejected as `DurationGreaterThanOneDay`,
and a 90,000 ms duration below a 100,000 ms period is reported as
`DurationGreaterThanOneDay` instead of `DurationSmallerThanPeriod`. -/
theorem C4_validate_duration_day_check_uses_seconds :
    validate_duration 100 86401 =
      .error (.InvalidDuration (.DurationGreaterThanOneDay 86401)) ∧
    validate_duration 100000 90000 =
      .error (.InvalidDuration (.DurationGreaterThanOneDay 90000)) ∧
    validate_duration 100 86400 = .ok () := by decide

/-- **C9** (code_bug evidence).  For period 200,000 ms and duration
100,000 ms the input is invalid because the duration is smaller than the
period, so per the claim the matching variant is `DurationSmallerThanPeriod`;
the code instead returns `DurationGreaterThanOneDay` (the seconds/milliseconds
slip of `validate_duration`).  No background task is spawned on any error,
which is the part of the claim the code honours. -/
theorem C9_start_rejects_with_mismatched_variant :
    (start 200000 100000).1 =
      .error (.InvalidDuration (.DurationGreaterThanOneDay 100000)) ∧
    (start 200000 100000).2 = false ∧
    (∀ p d, (start p d).2 = true → (start p d).1 = .ok ()) := by
  refine ⟨by decide, by decide, ?_⟩
  intro p d h
  unfold start at *
  cases hv : validate_duration p d with
  | error e => simp [hv] at h
  | ok u => simp [hv]

/-- **C10** (code_bug evidence).  At duration = 35 ms, period = 5 ms (both
accepted by the validators), the `f64` computation of `calc_intervals` yields
`ceil(0.035 / 0.005) = ceil(7.000000000000001) = 8`, while the exact integer
ceiling of 35/5 is 7. -/
theorem C10_calc_intervals_differs_from_exact_ceiling :
    calc_intervals 35 5 = 8 ∧ (35 + 5 - 1) / 5 = 7 ∧
    validate_period 5 = .ok () ∧ validate_duration 5 35 = .ok () := by decide

/-- **C2** (code_bug evidence).  The claimed scenario holds: period 100 ms,
duration 1000 ms produces exactly `1000,900,...,100,0`.  But for period
300 ms, duration 1000 ms — accepted by both validators — the loop runs to
`i = calc_intervals = 4` and computes `1000 - 300*4` on `u64`, which
overflows: the emitted sequence is not `ceil(duration/period)+1` strictly
decreasing values ending in 0.  (Durations in `(86_400, 86_400_000]` ms are
also rejected outright by the seconds/milliseconds slip in
`validate_duration`, contradicting the claimed acceptance range.) -/
theorem C2_sequence_underflows_on_non_divisible_period :
    countdown 1000 100 =
      some [1000, 900, 800, 700, 600, 500, 400, 300, 200, 100, 0] ∧
    validate_period 300 = .ok () ∧ validate_duration 300 1000 = .ok () ∧
    countdown 1000 300 = none ∧
    validate_duration 100 100000 =
      .error (.InvalidDuration (.DurationGreaterThanOneDay 100000)) := by decide

/-- **C5** (code_bug evidence).  For period 300 ms, duration 1000 ms — a pair
the validators accept and `start` launches — the background loop's fourth
iteration computes `1000 - (300 * 4)` on `u64`, an arithmetic overflow
(panic in a debug build): ticking is not panic-free on all validated
inputs.  The same happens at period 5 ms, duration 35 ms, where the `f64`
ceiling itself overshoots. -/
theorem C5_tick_loop_panics_on_validated_input :
    (start 300 1000).1 = .ok () ∧ (start 300 1000).2 = true ∧
    calc_intervals 1000 300 = 4 ∧ 1000 < 300 * 4 ∧
    countdown 1000 300 = none ∧ countdown 35 5 = none := by decide

/-- **C1** (code_bug evidence).  Trace on a fresh channel: `recv()` consumes
the initial value 0 and raises the ack flag; `send(1)` publishes a new value;
`close()` then finds the ack flag still raised (it was never consumed after
the `recv` of the *initial* value), so `wait_ack` succeeds at once and
`close()` returns `Ok`, marking the channel closed while the most recently
sent value 1 is still unobserved (`valueChanged` remains `true`) and was
never acknowledged. -/
theorem C1_close_completes_with_latest_value_unacked :
    (ChannelReceiver.recv (Channel.new (T := Nat) 0)).1 = .ok (.Value 0) ∧
    (ChannelSender.close (runOps (Channel.new (T := Nat) 0) [.recv, .send 1])).1 =
      .ok () ∧
    (ChannelSender.close (runOps (Channel.new (T := Nat) 0) [.recv, .send 1])).2.closed =
      true ∧
    (runOps (Channel.new (T := Nat) 0) [.recv, .send 1]).value = 1 ∧
    (runOps (Channel.new (T := Nat) 0) [.recv, .send 1]).valueChanged = true ∧
    (ChannelSender.close (runOps (Channel.new (T := Nat) 0) [.recv, .send 1])).2.valueChanged =
      true := by decide

/-- **C6** (confirmed).  If `close()`'s ack-wait times out (sequentially: the
ack flag is not raised, so the poll loop can never succeed and
`time::timeout` fires), `close()` fails with `Timeout` carrying the
configured timeout, leaves the state — in particular the `closed` flag —
untouched, and a subsequent `recv()` cannot observe `Closed` (it returns the
pending value or times out). -/
theorem C6_close_timeout_leaves_channel_open {T : Type} (c : Channel T)
    (hack : c.ackChanged = false) (hcl : c.closed = false) :
    (ChannelSender.close c).1 = .error (.ChannelError (.Timeout c.timeout_ms)) ∧
    (ChannelSender.close c).2 = c ∧
    (ChannelSender.close c).2.closed = false ∧
    ∀ r, (ChannelReceiver.recv (ChannelSender.close c).2).1 = .ok r →
      r ≠ .Closed := by
  have hclose : ChannelSender.close c =
      (.error (.ChannelError (.Timeout c.timeout_ms)), c) := by
    simp [ChannelSender.close, Channel.wait_ack, hack]
  refine ⟨by rw [hclose], by rw [hclose], by rw [hclose, hcl], ?_⟩
  intro r hr
  rw [hclose] at hr
  by_cases hch : c.valueChanged
  · simp [ChannelReceiver.recv, Channel.read, hcl, hch] at hr
    subst hr
    intro h
    cases h
  · simp [ChannelReceiver.recv, Channel.read, hcl, hch] at hr

/-- Witness for C6 at a concrete fresh channel (ack flag down, not closed). -/
theorem C6_close_timeout_leaves_channel_open_witness :
    (Channel.new (T := Nat) 42).ackChanged = false ∧
    (Channel.new (T := Nat) 42).closed = false ∧
    ((ChannelSender.close (Channel.new (T := Nat) 42)).1 =
        .error (.ChannelError (.Timeout (Channel.new (T := Nat) 42).timeout_ms)) ∧
      (ChannelSender.close (Channel.new (T := Nat) 42)).2 = Channel.new (T := Nat) 42 ∧
      (ChannelSender.close (Channel.new (T := Nat) 42)).2.closed = false ∧
      ∀ r, (ChannelReceiver.recv
          (ChannelSender.close (Channel.new (T := Nat) 42)).2).1 = .ok r →
        r ≠ .Closed) :=
  ⟨by decide, by decide,
    C6_close_timeout_leaves_channel_open (Channel.new (T := Nat) 42)
      (by decide) (by decide)⟩

/-- Helper: no channel operation ever lowers the `closed` flag. -/
theorem applyOp_preserves_closed {T : Type} (c : Channel T) (op : Op T)
    (h : c.closed = true) : (applyOp c op).closed = true := by
  cases op with
  | send v => simpa [applyOp, ChannelSender.send, Channel.write] using h
  | recv => simp [applyOp, ChannelReceiver.recv, Channel.read, h, Channel.ack]
  | close =>
    cases hA : c.ackChanged <;>
      simp [applyOp, ChannelSender.close, Channel.wait_ack, hA, h]
  | read => simp [applyOp, Channel.read, h]
  | ack => simpa [applyOp, Channel.ack] using h
  | write v => simpa [applyOp, Channel.write] using h
  | wait_ack =>
    cases hA : c.ackChanged <;>
      simp [applyOp, Channel.wait_ack, hA, h]

/-- Helper: the `closed` flag survives any sequential trace of operations. -/
theorem runOps_preserves_closed {T : Type} (ops : List (Op T)) (c : Channel T)
    (h : c.closed = true) : (runOps c ops).closed = true := by
  induction ops generalizing c with
  | nil => simpa [runOps] using h
  | cons op ops ih =>
    simp only [runOps]
    exact ih _ (applyOp_preserves_closed c op h)

/-- Helper: `recv` on a closed channel returns `Closed`. -/
theorem recv_of_closed {T : Type} (c : Channel T) (h : c.closed = true) :
    (ChannelReceiver.recv c).1 = .ok .Closed := by
  simp [ChannelReceiver.recv, Channel.read, h]

/-- Helper: `recv` returns `Closed` only from a closed channel. -/
theorem closed_of_recv_Closed {T : Type} (c : Channel T)
    (h : (ChannelReceiver.recv c).1 = .ok .Closed) : c.closed = true := by
  cases hcl : c.closed with
  | true => rfl
  | false =>
    exfalso
    cases hch : c.valueChanged with
    | true => simp [ChannelReceiver.recv, Channel.read, hcl, hch] at h
    | false => simp [ChannelReceiver.recv, Channel.read, hcl, hch] at h

/-- C7 (confirmed).  Once `recv()` has returned `Closed` the channel is
closed, every operation of any subsequent sequential trace — `send`, `recv`,
`close`, and the internal `read`/`ack`/`write`/`wait_ack` — leaves the
`closed` flag `true`, and `recv()` at any point of that trace again returns
`Closed` immediately. -/
theorem C7_closed_terminal_and_repeatable {T : Type} (c : Channel T)
    (ops : List (Op T)) (h : (ChannelReceiver.recv c).1 = .ok .Closed) :
    (runOps c ops).closed = true ∧
    (ChannelReceiver.recv (runOps c ops)).1 = .ok .Closed := by
  have hc : c.closed = true := closed_of_recv_Closed c h
  have hall : (runOps c ops).closed = true := runOps_preserves_closed ops c hc
  exact ⟨hall, recv_of_closed _ hall⟩

/-- Witness for C7: a channel actually closed by the code (`recv` then
`close` from fresh), followed by a trace exercising every operation. -/
theorem C7_closed_terminal_and_repeatable_witness :
    (ChannelReceiver.recv (runOps (Channel.new (T := Nat) 0) [.recv, .close])).1 =
      .ok .Closed ∧
    ((runOps (runOps (Channel.new (T := Nat) 0) [.recv, .close])
        [.send 7, .recv, .wait_ack, .write 3, .read, .ack, .close]).closed = true ∧
      (ChannelReceiver.recv (runOps (runOps (Channel.new (T := Nat) 0) [.recv, .close])
          [.send 7, .recv, .wait_ack, .write 3, .read, .ack, .close])).1 =
        .ok .Closed) :=
  ⟨by decide,
    C7_closed_terminal_and_repeatable (runOps (Channel.new (T := Nat) 0) [.recv, .close])
      [.send 7, .recv, .wait_ack, .write 3, .read, .ack, .close] (by decide)⟩

/-- C8 (confirmed).  Two `send`s with no intervening `recv` leave exactly the
state a single `send` of the second value leaves (`send_modify` overwrites
the single slot and raises the changed flag), and the consumer's next `recv`
observes only the second value. -/
theorem C8_latest_value_wins {T : Type} (c : Channel T) (v1 v2 : T)
    (h : c.closed = false) :
    (ChannelSender.send (ChannelSender.send c v1).2 v2).2 =
      (ChannelSender.send c v2).2 ∧
    (ChannelReceiver.recv (ChannelSender.send (ChannelSender.send c v1).2 v2).2).1 =
      .ok (.Value v2) := by
  refine ⟨rfl, ?_⟩
  simp [ChannelSender.send, Channel.write, ChannelReceiver.recv, Channel.read, h]

/-- Witness for C8, mirroring the repo test `should_return_latest_value_only`:
values 99 then 50 on a fresh channel seeded with 100. -/
theorem C8_latest_value_wins_witness :
    (Channel.new (T := Nat) 100).closed = false ∧
    ((ChannelSender.send (ChannelSender.send (Channel.new (T := Nat) 100) 99).2 50).2 =
        (ChannelSender.send (Channel.new (T := Nat) 100) 50).2 ∧
      (ChannelReceiver.recv (ChannelSender.send
          (ChannelSender.send (Channel.new (T := Nat) 100) 99).2 50).2).1 =
        .ok (.Value 50)) :=
  ⟨by decide, C8_latest_value_wins (Channel.new (T := Nat) 100) 99 50 (by decide)⟩

/-- C3 counterexample.  At a watcher whose underlying receiver holds the new
value 0, `next` returns `Ok(None)` — not `Ok(Some 0)` as the claim states
(the repo's own test `should_return_none_if_value_is_zero` asserts the same
behaviour as the code). -/
theorem C3_counterexample_next_zero_returns_none :
    (ChannelWatcher.next { value := 0, changed := true, timeout_ms := 1000 }).1 =
      .ok none ∧
    (ChannelWatcher.next { value := 0, changed := true, timeout_ms := 1000 }).1 ≠
      .ok (some 0) := by decide

/-- C3 amended (proved).  When a new value has arrived, `next` consumes it
and returns `None` when that value is zero — zero itself is never delivered
as `Some`, and the zero-consuming call is the one that returns `None` — and
`Some v` when the value `v` is nonzero; there is no `Closed`-driven `None`
path in this watcher. -/
theorem C3_next_zero_is_none (w : ChannelWatcher Nat) (h : w.changed = true) :
    (ChannelWatcher.next w).1 =
      .ok (if w.value = 0 then none else some w.value) ∧
    (ChannelWatcher.next w).2 = { w with changed := false } := by
  by_cases hz : w.value = 0 <;> simp [ChannelWatcher.next, h, is_zero, hz]

/-- Witness for the amended C3 at the zero value. -/
theorem C3_next_zero_is_none_witness :
    (⟨0, true, 1000⟩ : ChannelWatcher Nat).changed = true ∧
    ((ChannelWatcher.next (⟨0, true, 1000⟩ : ChannelWatcher Nat)).1 =
        .ok (if (⟨0, true, 1000⟩ : ChannelWatcher Nat).value = 0 then none
          else some (⟨0, true, 1000⟩ : ChannelWatcher Nat).value) ∧
      (ChannelWatcher.next (⟨0, true, 1000⟩ : ChannelWatcher Nat)).2 =
        { (⟨0, true, 1000⟩ : ChannelWatcher Nat) with changed := false }) :=
  ⟨by decide, C3_next_zero_is_none ⟨0, true, 1000⟩ (by decide)⟩

end Tomatillo
